import Mathlib

/-!
Pulse, a command-line health-check probe.

A shallow embedding of `main.go` and `healthcheck.go`.

* Strings are Lean strings (sequences of Unicode characters), Go `int` and `time.Duration`
  values are `Int`; the program does no arithmetic on them.
* A Go `error` is represented by its message; `Option GoError` is a possibly-nil error.
* `log.Fatalf` ends the process: functions that may call it return `Except Fatal _`.
* Everything the program obtains from outside the repository (the Unicode case table behind
  `strings.ToUpper`, `http.NewRequest`, and the outcome of every network call) is a parameter.
* Each probe returns, next to its Go result `(bool, error)`, the lines it sent to the logger and
  the sequence of library calls it performed together with what each call returned.
-/

namespace Pulse

/-! ## Data model (`main.go`) -/

/-- A non-nil Go `error`, represented by the text of its `Error()` method. -/
abbrev GoError := String

/-- The `Config` struct of `main.go`. `Timeout` is a `time.Duration` (nanoseconds). -/
structure Config where
  Mode : String
  Host : String
  Port : Int
  Path : String
  Method : String
  Timeout : Int
  Silent : Bool
  Verbose : Bool
  deriving DecidableEq, Repr

/-- The values of the eight command-line flags once `flag.Parse()` has returned. -/
structure Flags where
  mode : String
  host : String
  port : Int
  timeout : Int
  silent : Bool
  verbose : Bool
  path : String
  method : String
  deriving DecidableEq, Repr

/-- The flag defaults declared in `parseFlags` (`5*time.Second` is 5e9 nanoseconds). -/
def Flags.defaults : Flags :=
  { mode := "tcp", host := "localhost", port := 80, timeout := 5000000000,
    silent := false, verbose := false, path := "/", method := "GET" }

/-- The three `log.Fatalf` call sites of `parseFlags` (the first is repeated in `main`),
each with the value it formats. -/
inductive Fatal where
  | invalidMode (mode : String)
  | invalidPort (port : Int)
  | invalidMethod (method : String)
  deriving DecidableEq, Repr

/-- The diagnostic text written by `log.Fatalf` before the process exits with status 1. -/
def Fatal.message : Fatal → String
  | .invalidMode m => "Invalid mode: " ++ m ++ ". Use 'tcp', 'udp', or 'http'"
  | .invalidPort p => "Invalid port: " ++ toString p ++ ". Must be between 1 and 65535"
  | .invalidMethod m => "Invalid HTTP method: " ++ m

deriving instance DecidableEq for Except

/-! ## Configuration resolution (`parseFlags`) -/

/-- Go `unicode.ToUpper`: an ASCII rune in `a..z` is moved to `A..Z`, any other ASCII rune is
unchanged, and a rune above `unicode.MaxASCII` is looked up in the standard library's case
table, which is the parameter `caseTable`. -/
def toUpperRune (caseTable : Char → Char) (r : Char) : Char :=
  if r.toNat ≤ 127 then
    if 'a'.toNat ≤ r.toNat ∧ r.toNat ≤ 'z'.toNat then Char.ofNat (r.toNat - ('a'.toNat - 'A'.toNat))
    else r
  else caseTable r

/-- Go `strings.ToUpper`: every rune of the string is upper-cased. (The ASCII-only fast path of
the library computes the same string as the general path.) -/
def ToUpper (caseTable : Char → Char) (s : String) : String :=
  String.mk (s.data.map (toUpperRune caseTable))

/-- The map literal `validMethods` of `parseFlags`. -/
def validMethods : List (String × Bool) :=
  [("GET", true), ("POST", true), ("PUT", true), ("DELETE", true),
   ("HEAD", true), ("OPTIONS", true), ("PATCH", true)]

/-- Indexing a Go `map[string]bool`: an absent key reads as `false`. -/
def mapIndex (m : List (String × Bool)) (key : String) : Bool :=
  (m.lookup key).getD false

/-- The function `parseFlags` after `flag.Parse()`: copy the flags into a `Config` (upper-casing the
method), then validate mode, port and, in http mode, the method, in that order. -/
def parseFlags (caseTable : Char → Char) (a : Flags) : Except Fatal Config :=
  let config : Config :=
    { Mode := a.mode, Host := a.host, Port := a.port, Timeout := a.timeout,
      Silent := a.silent, Verbose := a.verbose, Path := a.path,
      Method := ToUpper caseTable a.method }
  if config.Mode ≠ "tcp" ∧ config.Mode ≠ "udp" ∧ config.Mode ≠ "http" then
    .error (.invalidMode config.Mode)
  else if config.Port < 1 ∨ config.Port > 65535 then
    .error (.invalidPort config.Port)
  else if config.Mode = "http" then
    if ¬ (mapIndex validMethods config.Method = true) then
      .error (.invalidMethod config.Method)
    else
      .ok config
  else
    .ok config

/-! ## The outside world -/

/-- What `http.Client.Do` returned: an error, or a response carrying a status code. -/
inductive DoResult where
  | failure (err : GoError)
  | response (StatusCode : Int)
  deriving DecidableEq, Repr

/-- The outcome of every call the probes make into the standard library. `none` is a nil error.
Calls that receive data from the program are functions of that data; the two calls to
`SetReadDeadline` in `checkUDP` have an outcome each. -/
structure World where
  /-- Outcome of `net.Dialer.DialContext` under a context with the given timeout. -/
  dialContext : (timeout : Int) → (network : String) → (address : String) → Option GoError
  /-- Outcome of `conn.SetWriteDeadline`. -/
  setWriteDeadline : Option GoError
  /-- Outcome of `conn.Write`. -/
  write : (payload : String) → Option GoError
  /-- Outcome of the first `conn.SetReadDeadline` (the configured timeout). -/
  setReadDeadline : Option GoError
  /-- Outcome of the second `conn.SetReadDeadline` (100 ms); the program discards it. -/
  setReadDeadlineShort : Option GoError
  /-- Outcome of `conn.Read`: `none` when data arrived, an error on time-out or failure. -/
  read : Option GoError
  /-- Outcome of `http.NewRequest method url nil`. -/
  newRequest : (method : String) → (url : String) → Option GoError
  /-- Outcome of `client.Do` for a client with the given timeout. -/
  clientDo : (timeout : Int) → (method : String) → (url : String) → (userAgent : String) → DoResult
  /-- Outcome of draining the body with `io.Copy io.Discard resp.Body`. -/
  copyBody : Option GoError

/-- One library call performed by a probe, with its arguments and what it returned. -/
inductive Step where
  | dial (timeout : Int) (network : String) (address : String) (err : Option GoError)
  | setWriteDeadline (after : Int) (err : Option GoError)
  | write (payload : String) (err : Option GoError)
  | setReadDeadline (after : Int) (err : Option GoError)
  | read (size : Nat) (err : Option GoError)
  | close
  | newRequest (method : String) (url : String) (err : Option GoError)
  | clientDo (timeout : Int) (method : String) (url : String) (userAgent : String)
      (result : DoResult)
  | copyBody (err : Option GoError)
  | closeBody
  deriving DecidableEq, Repr

/-- A finished probe: the Go return values `(bool, error)`, the lines sent to the logger and the
calls performed, in order. -/
structure ProbeRun where
  success : Bool
  err : Option GoError
  log : List String
  steps : List Step
  deriving DecidableEq, Repr

/-- The Go return value `(bool, error)` of a probe. -/
def ProbeRun.result (r : ProbeRun) : Bool × Option GoError := (r.success, r.err)

/-- The guard `if config.Verbose { log.Printf(...) }`: the lines reach the logger only in verbose
mode. -/
def verbose (config : Config) (lines : List String) : List String :=
  if config.Verbose then lines else []

/-- The dial address `fmt.Sprintf("%s:%d", config.Host, config.Port)`. -/
def address (config : Config) : String :=
  config.Host ++ ":" ++ toString config.Port

/-! ## The probes (`healthcheck.go`) -/

/-- The function `checkTCP`. -/
def checkTCP (w : World) (config : Config) : ProbeRun :=
  let log0 := verbose config ["Checking TCP connection to " ++ address config]
  match w.dialContext config.Timeout "tcp" (address config) with
  | some err =>
    { success := false, err := none,
      log := log0 ++ verbose config ["TCP connection failed: " ++ err],
      steps := [.dial config.Timeout "tcp" (address config) (some err)] }
  | none =>
    { success := true, err := none,
      log := log0 ++ verbose config ["TCP connection successful"],
      steps := [.dial config.Timeout "tcp" (address config) none, .close] }

/-- The payload `probe := []byte("PING")` of `checkUDP`. -/
def probe : String := "PING"

/-- The function `checkUDP`. -/
def checkUDP (w : World) (config : Config) : ProbeRun :=
  let log0 := verbose config ["Checking UDP connection to " ++ address config]
  match w.dialContext config.Timeout "udp" (address config) with
  | some err =>
    { success := false, err := none,
      log := log0 ++ verbose config ["UDP connection failed: " ++ err],
      steps := [.dial config.Timeout "udp" (address config) (some err)] }
  | none =>
    let dialled := [Step.dial config.Timeout "udp" (address config) none]
    match w.setWriteDeadline with
    | some err =>
      { success := false, err := none,
        log := log0 ++ verbose config ["Failed to set write deadline: " ++ err],
        steps := dialled ++ [.setWriteDeadline config.Timeout (some err), .close] }
    | none =>
      match w.write probe with
      | some err =>
        { success := false, err := none,
          log := log0 ++ verbose config ["Failed to send UDP probe: " ++ err],
          steps := dialled ++ [.setWriteDeadline config.Timeout none,
            .write probe (some err), .close] }
      | none =>
        let log1 := match w.setReadDeadline with
          | some err => verbose config ["Failed to set read deadline: " ++ err]
          | none => []
        let log2 := verbose config
          [ if w.read ≠ none then
              "UDP probe sent successfully, no response received (this is normal for many UDP services)"
            else
              "UDP probe sent successfully, response received",
            "UDP connection successful" ]
        { success := true, err := none,
          log := log0 ++ log1 ++ log2,
          steps := dialled ++ [.setWriteDeadline config.Timeout none, .write probe none,
            .setReadDeadline config.Timeout w.setReadDeadline,
            .setReadDeadline 100000000 w.setReadDeadlineShort,
            .read 1024 w.read, .close] }

/-- The URL of `checkHTTP`: the protocol is chosen from the port, then
`fmt.Sprintf("%s://%s:%d%s", protocol, config.Host, config.Port, config.Path)`. -/
def requestURL (config : Config) : String :=
  let protocol := if config.Port = 443 then "https" else "http"
  protocol ++ "://" ++ config.Host ++ ":" ++ toString config.Port ++ config.Path

/-- The function `checkHTTP`. -/
def checkHTTP (w : World) (config : Config) : ProbeRun :=
  let log0 := verbose config
    ["Checking HTTP " ++ config.Method ++ " request to " ++ address config ++ config.Path]
  let url := requestURL config
  match w.newRequest config.Method url with
  | some err =>
    { success := false, err := some err,
      log := log0 ++ verbose config ["Failed to create HTTP request: " ++ err],
      steps := [.newRequest config.Method url (some err)] }
  | none =>
    let built := [Step.newRequest config.Method url none]
    match w.clientDo config.Timeout config.Method url "Pulse/1.0" with
    | .failure err =>
      { success := false, err := none,
        log := log0 ++ verbose config ["HTTP request failed: " ++ err],
        steps := built ++ [.clientDo config.Timeout config.Method url "Pulse/1.0" (.failure err)] }
    | .response StatusCode =>
      let log1 := match w.copyBody with
        | some err => verbose config ["Warning: failed to read response body: " ++ err]
        | none => []
      { success := decide (StatusCode ≥ 200 ∧ StatusCode < 400), err := none,
        log := log0 ++ log1 ++
          verbose config ["HTTP request successful, status: " ++ toString StatusCode],
        steps := built ++ [.clientDo config.Timeout config.Method url "Pulse/1.0"
          (.response StatusCode), .copyBody w.copyBody, .closeBody] }

/-! ## The dispatcher (`main`) -/

/-- The three probe functions. -/
inductive ProbeKind where
  | tcp
  | udp
  | http
  deriving DecidableEq, Repr

/-- The name under which a probe is selected. -/
def ProbeKind.mode : ProbeKind → String
  | .tcp => "tcp"
  | .udp => "udp"
  | .http => "http"

/-- The probe function itself. -/
def ProbeKind.run : ProbeKind → World → Config → ProbeRun
  | .tcp => checkTCP
  | .udp => checkUDP
  | .http => checkHTTP

/-- The `switch config.Mode` of `main`: the probe called and what it returned, or the
`log.Fatalf` of the default branch. -/
def dispatch (w : World) (config : Config) : Except Fatal (ProbeKind × ProbeRun) :=
  if config.Mode = "tcp" then .ok (.tcp, checkTCP w config)
  else if config.Mode = "udp" then .ok (.udp, checkUDP w config)
  else if config.Mode = "http" then .ok (.http, checkHTTP w config)
  else .error (.invalidMode config.Mode)

/-- A finished process. `stdout` holds the lines written with `fmt.Println` (each is followed by a
newline on the stream), `log` the lines written through package `log`, `invoked` the probe
functions called, `steps` their library calls and `fatal` the `log.Fatalf` that ended the
process, if one did. -/
structure Process where
  exitCode : Int
  stdout : List String
  log : List String
  invoked : List ProbeKind
  steps : List Step
  fatal : Option Fatal
  deriving DecidableEq, Repr

/-- The call `log.Fatalf`: the message is logged and the process exits with status 1. -/
def fatalExit (f : Fatal) (logged : List String) : Process :=
  { exitCode := 1, stdout := [], log := logged ++ [f.message], invoked := [], steps := [],
    fatal := some f }

/-- What the tail of `main` does with a probe result: the exit status passed to `os.Exit`, the
lines written with `fmt.Println` and the lines logged. -/
structure Verdict where
  exitCode : Int
  stdout : List String
  log : List String
  deriving DecidableEq, Repr

/-- The tail of `main` after the switch: map `(success, err)` to the output and the exit
status. -/
def report (config : Config) (success : Bool) (err : Option GoError) : Verdict :=
  match err with
  | some e => { exitCode := 1, stdout := [], log := verbose config ["Error: " ++ e] }
  | none =>
    if success then
      { exitCode := 0, stdout := if ¬ config.Silent then ["OK"] else [], log := [] }
    else
      { exitCode := 1, stdout := if ¬ config.Silent then ["FAIL"] else [], log := [] }

/-- The start-up lines `main` logs in verbose mode. -/
def banner (config : Config) : List String :=
  if config.Verbose then
    ["Pulse healthcheck tool starting...", "Mode: " ++ config.Mode,
      "Target: " ++ address config] ++
    (if config.Mode = "http" then ["Path: " ++ config.Path, "Method: " ++ config.Method] else [])
  else []

/-- The function `main`: resolve the configuration, run the selected probe, report. -/
def main (caseTable : Char → Char) (w : World) (a : Flags) : Process :=
  match parseFlags caseTable a with
  | .error f => fatalExit f []
  | .ok config =>
    match dispatch w config with
    | .error f => fatalExit f (banner config)
    | .ok (kind, run) =>
      let verdict := report config run.success run.err
      { exitCode := verdict.exitCode, stdout := verdict.stdout,
        log := banner config ++ run.log ++ verdict.log,
        invoked := [kind], steps := run.steps, fatal := none }

/-! ## Sample runs -/

/-- A world in which every call succeeds and the server answers with the given status. -/
def World.healthy (status : Int) : World :=
  { dialContext := fun _ _ _ => none, setWriteDeadline := none, write := fun _ => none,
    setReadDeadline := none, setReadDeadlineShort := none, read := none,
    newRequest := fun _ _ => none, clientDo := fun _ _ _ _ => .response status,
    copyBody := none }

/-- A world in which every network call fails. -/
def World.down : World :=
  { dialContext := fun _ _ _ => some "connection refused", setWriteDeadline := none,
    write := fun _ => some "connection refused", setReadDeadline := none,
    setReadDeadlineShort := none, read := some "i/o timeout",
    newRequest := fun _ _ => none, clientDo := fun _ _ _ _ => .failure "no such host",
    copyBody := none }

/-- A verbose http configuration for port 443. -/
def Config.httpsSample : Config :=
  { Mode := "http", Host := "example.org", Port := 443, Path := "/health", Method := "GET",
    Timeout := 5000000000, Silent := false, Verbose := true }

/-- A world in which the UDP socket connects and the probe is sent, but the read deadline cannot
be set and no answer arrives. -/
def World.silentPeer : World :=
  { World.down with
    dialContext := fun _ _ _ => none, write := fun _ => none,
    setReadDeadline := some "use of closed network connection" }

/-- An http configuration whose path has no leading slash. -/
def Config.noSlash : Config :=
  { Mode := "http", Host := "localhost", Port := 8080, Path := "health", Method := "GET",
    Timeout := 5000000000, Silent := false, Verbose := false }

/-- A world in which the socket connects but the probe cannot be written, and the HTTP round
trip fails. -/
def World.sendFails : World :=
  { World.down with dialContext := fun _ _ _ => none }

/-- Flags selecting the http probe on port 8080 with the method spelled `Options`. -/
def Flags.httpSample : Flags :=
  { Flags.defaults with mode := "http", port := 8080, method := "Options" }

/-- The methods that `validMethods` maps to `true`. -/
def allowedMethods : List String :=
  ["GET", "POST", "PUT", "DELETE", "HEAD", "OPTIONS", "PATCH"]

/-- The configuration `parseFlags` fills in from the flags before validating it. -/
def configOf (caseTable : Char → Char) (a : Flags) : Config :=
  { Mode := a.mode, Host := a.host, Port := a.port, Timeout := a.timeout,
    Silent := a.silent, Verbose := a.verbose, Path := a.path,
    Method := ToUpper caseTable a.method }

/-! ## Facts shared by the proofs -/

theorem mapIndex_validMethods (m : String) :
    mapIndex validMethods m = true ↔ m ∈ allowedMethods := by
  simp only [mapIndex, validMethods, allowedMethods, List.lookup]
  by_cases h1 : m = "GET"
  · subst h1; decide
  by_cases h2 : m = "POST"
  · subst h2; decide
  by_cases h3 : m = "PUT"
  · subst h3; decide
  by_cases h4 : m = "DELETE"
  · subst h4; decide
  by_cases h5 : m = "HEAD"
  · subst h5; decide
  by_cases h6 : m = "OPTIONS"
  · subst h6; decide
  by_cases h7 : m = "PATCH"
  · subst h7; decide
  have e1 : (m == "GET") = false := by simpa using h1
  have e2 : (m == "POST") = false := by simpa using h2
  have e3 : (m == "PUT") = false := by simpa using h3
  have e4 : (m == "DELETE") = false := by simpa using h4
  have e5 : (m == "HEAD") = false := by simpa using h5
  have e6 : (m == "OPTIONS") = false := by simpa using h6
  have e7 : (m == "PATCH") = false := by simpa using h7
  simp [e1, e2, e3, e4, e5, e6, e7, h1, h2, h3, h4, h5, h6, h7]

theorem ToUpper_get (caseTable : Char → Char) : ToUpper caseTable "get" = "GET" := by
  rfl

theorem parseFlags_invalidMode (caseTable : Char → Char) (a : Flags)
    (h : a.mode ≠ "tcp" ∧ a.mode ≠ "udp" ∧ a.mode ≠ "http") :
    parseFlags caseTable a = .error (.invalidMode a.mode) := by
  simp [parseFlags, h]

theorem parseFlags_invalidPort (caseTable : Char → Char) (a : Flags)
    (hmode : a.mode = "tcp" ∨ a.mode = "udp" ∨ a.mode = "http")
    (hport : a.port < 1 ∨ a.port > 65535) :
    parseFlags caseTable a = .error (.invalidPort a.port) := by
  have hm : ¬ (a.mode ≠ "tcp" ∧ a.mode ≠ "udp" ∧ a.mode ≠ "http") := by
    rcases hmode with h | h | h <;> simp [h]
  unfold parseFlags
  simp only []
  rw [if_neg hm, if_pos hport]

theorem parseFlags_invalidMethod (caseTable : Char → Char) (a : Flags)
    (hmode : a.mode = "http") (hport : 1 ≤ a.port ∧ a.port ≤ 65535)
    (hmethod : ¬ (mapIndex validMethods (ToUpper caseTable a.method) = true)) :
    parseFlags caseTable a = .error (.invalidMethod (ToUpper caseTable a.method)) := by
  have hm : ¬ (a.mode ≠ "tcp" ∧ a.mode ≠ "udp" ∧ a.mode ≠ "http") := by simp [hmode]
  have hp : ¬ (a.port < 1 ∨ a.port > 65535) := by omega
  unfold parseFlags
  simp only []
  rw [if_neg hm, if_neg hp, if_pos hmode, if_pos hmethod]

theorem parseFlags_ok (caseTable : Char → Char) (a : Flags)
    (hmode : a.mode = "tcp" ∨ a.mode = "udp" ∨ a.mode = "http")
    (hport : 1 ≤ a.port ∧ a.port ≤ 65535)
    (hmethod : a.mode = "http" → mapIndex validMethods (ToUpper caseTable a.method) = true) :
    parseFlags caseTable a = .ok (configOf caseTable a) := by
  have hm : ¬ (a.mode ≠ "tcp" ∧ a.mode ≠ "udp" ∧ a.mode ≠ "http") := by
    rcases hmode with h | h | h <;> simp [h]
  have hp : ¬ (a.port < 1 ∨ a.port > 65535) := by omega
  unfold parseFlags
  simp only []
  rw [if_neg hm, if_neg hp]
  by_cases hh : a.mode = "http"
  · rw [if_pos hh, if_neg (not_not.mpr (hmethod hh))]
    rfl
  · rw [if_neg hh]
    rfl

/-- Whatever `parseFlags` returns is the configuration read from the flags, with a mode among the
three names, a port in range and, in http mode, an allowed method. -/
theorem parseFlags_returns (caseTable : Char → Char) (a : Flags) (config : Config)
    (h : parseFlags caseTable a = .ok config) :
    config = configOf caseTable a ∧
    (a.mode = "tcp" ∨ a.mode = "udp" ∨ a.mode = "http") ∧
    (1 ≤ a.port ∧ a.port ≤ 65535) ∧
    (a.mode = "http" → mapIndex validMethods (ToUpper caseTable a.method) = true) := by
  by_cases hm : a.mode ≠ "tcp" ∧ a.mode ≠ "udp" ∧ a.mode ≠ "http"
  · rw [parseFlags_invalidMode caseTable a hm] at h
    cases h
  have hmode : a.mode = "tcp" ∨ a.mode = "udp" ∨ a.mode = "http" := by
    by_contra hc
    exact hm ⟨fun h => hc (Or.inl h), fun h => hc (Or.inr (Or.inl h)),
      fun h => hc (Or.inr (Or.inr h))⟩
  by_cases hp : a.port < 1 ∨ a.port > 65535
  · rw [parseFlags_invalidPort caseTable a hmode hp] at h
    cases h
  have hport : 1 ≤ a.port ∧ a.port ≤ 65535 := by omega
  by_cases hv : a.mode = "http" → mapIndex validMethods (ToUpper caseTable a.method) = true
  · rw [parseFlags_ok caseTable a hmode hport hv] at h
    cases h
    exact ⟨rfl, hmode, hport, hv⟩
  · have hh : a.mode = "http" := by
      by_contra hc
      exact hv (fun h => absurd h hc)
    have hbad : ¬ (mapIndex validMethods (ToUpper caseTable a.method) = true) :=
      fun hc => hv (fun _ => hc)
    rw [parseFlags_invalidMethod caseTable a hh hport hbad] at h
    cases h

/-! ## Configuration resolution -/

/-- C1: with a valid mode and (in http mode) a valid method, `parseFlags` returns a configuration
exactly when `1 ≤ port ≤ 65535`; for every port below 1 or above 65535 it aborts with the
invalid-port diagnostic and returns no configuration. -/
theorem parseFlags_port_range (caseTable : Char → Char) (a : Flags)
    (hmode : a.mode = "tcp" ∨ a.mode = "udp" ∨ a.mode = "http")
    (hmethod : a.mode = "http" → mapIndex validMethods (ToUpper caseTable a.method) = true) :
    ((∃ config, parseFlags caseTable a = .ok config ∧ config.Port = a.port) ↔
      (1 ≤ a.port ∧ a.port ≤ 65535)) ∧
    ((a.port < 1 ∨ a.port > 65535) →
      parseFlags caseTable a = .error (.invalidPort a.port) ∧
      ∀ config, parseFlags caseTable a ≠ .ok config) := by
  refine ⟨⟨?_, fun hport => ⟨_, parseFlags_ok caseTable a hmode hport hmethod, rfl⟩⟩, ?_⟩
  · rintro ⟨config, hc, -⟩
    exact (parseFlags_returns caseTable a config hc).2.2.1
  · intro hp
    have herr := parseFlags_invalidPort caseTable a hmode hp
    refine ⟨herr, fun config hc => ?_⟩
    rw [herr] at hc
    cases hc

/-- C1, at port 65535 in http mode with method `get`. -/
theorem parseFlags_port_range_witness :
    ((∃ config, parseFlags id { Flags.defaults with mode := "http", port := 65535, method := "get" }
        = .ok config ∧ config.Port = 65535) ↔ ((1 : Int) ≤ 65535 ∧ (65535 : Int) ≤ 65535)) ∧
    (((65535 : Int) < 1 ∨ (65535 : Int) > 65535) →
      parseFlags id { Flags.defaults with mode := "http", port := 65535, method := "get" }
        = .error (.invalidPort 65535) ∧
      ∀ config, parseFlags id { Flags.defaults with mode := "http", port := 65535, method := "get" }
        ≠ .ok config) :=
  parseFlags_port_range id { Flags.defaults with mode := "http", port := 65535, method := "get" }
    (by decide) (by decide)

/-- C2: a mode other than exactly `tcp`, `udp` or `http` makes `parseFlags` abort with the
invalid-mode diagnostic whatever the other flags are (so does `TCP`: the comparison is
case-sensitive), and for each of the three names the mode check does not abort. -/
theorem parseFlags_mode_check (caseTable : Char → Char) (a : Flags) :
    ((a.mode ≠ "tcp" ∧ a.mode ≠ "udp" ∧ a.mode ≠ "http") →
      parseFlags caseTable a = .error (.invalidMode a.mode)) ∧
    ((a.mode = "tcp" ∨ a.mode = "udp" ∨ a.mode = "http") →
      ∀ m, parseFlags caseTable a ≠ .error (.invalidMode m)) ∧
    parseFlags caseTable { a with mode := "TCP" } = .error (.invalidMode "TCP") := by
  refine ⟨parseFlags_invalidMode caseTable a, ?_,
    parseFlags_invalidMode caseTable { a with mode := "TCP" } (by simp)⟩
  intro hmode m hc
  by_cases hp : a.port < 1 ∨ a.port > 65535
  · rw [parseFlags_invalidPort caseTable a hmode hp] at hc
    cases hc
  have hport : 1 ≤ a.port ∧ a.port ≤ 65535 := by omega
  by_cases hv : a.mode = "http" → mapIndex validMethods (ToUpper caseTable a.method) = true
  · rw [parseFlags_ok caseTable a hmode hport hv] at hc
    cases hc
  · have hh : a.mode = "http" := by
      by_contra hn
      exact hv (fun h => absurd h hn)
    have hbad : ¬ (mapIndex validMethods (ToUpper caseTable a.method) = true) :=
      fun hn => hv (fun _ => hn)
    rw [parseFlags_invalidMethod caseTable a hh hport hbad] at hc
    cases hc

/-- C2, at the mode `Http` and at the mode `udp`. -/
theorem parseFlags_mode_check_witness :
    parseFlags id { Flags.defaults with mode := "Http" } = .error (.invalidMode "Http") ∧
    ∀ m, parseFlags id { Flags.defaults with mode := "udp" } ≠ .error (.invalidMode m) :=
  ⟨(parseFlags_mode_check id { Flags.defaults with mode := "Http" }).1 (by decide),
   (parseFlags_mode_check id { Flags.defaults with mode := "udp" }).2.1 (by decide)⟩

/-- C3: in http mode with a port in range, `parseFlags` aborts exactly when the upper-cased
method is outside GET, POST, PUT, DELETE, HEAD, OPTIONS, PATCH, and then with the invalid-method
diagnostic; a returned configuration stores the upper-cased method; every configuration that
`parseFlags` returns with mode `http` has a method in that set; and `get` is accepted and
stored as `GET`. -/
theorem parseFlags_http_method (caseTable : Char → Char) (a : Flags)
    (hmode : a.mode = "http") (hport : 1 ≤ a.port ∧ a.port ≤ 65535) :
    ((∃ f, parseFlags caseTable a = .error f) ↔
      ToUpper caseTable a.method ∉ ["GET", "POST", "PUT", "DELETE", "HEAD", "OPTIONS", "PATCH"]) ∧
    (ToUpper caseTable a.method ∉ ["GET", "POST", "PUT", "DELETE", "HEAD", "OPTIONS", "PATCH"] →
      parseFlags caseTable a = .error (.invalidMethod (ToUpper caseTable a.method))) ∧
    (∀ config, parseFlags caseTable a = .ok config →
      config.Method = ToUpper caseTable a.method) ∧
    (∀ (b : Flags) (config : Config), parseFlags caseTable b = .ok config →
      config.Mode = "http" →
      config.Method ∈ ["GET", "POST", "PUT", "DELETE", "HEAD", "OPTIONS", "PATCH"]) ∧
    (∃ config, parseFlags caseTable { a with method := "get" } = .ok config ∧
      config.Method = "GET") := by
  have hm3 : a.mode = "tcp" ∨ a.mode = "udp" ∨ a.mode = "http" := Or.inr (Or.inr hmode)
  have hbad : ToUpper caseTable a.method ∉ allowedMethods →
      parseFlags caseTable a = .error (.invalidMethod (ToUpper caseTable a.method)) :=
    fun hn => parseFlags_invalidMethod caseTable a hmode hport
      (fun hv => hn ((mapIndex_validMethods _).mp hv))
  refine ⟨⟨?_, fun hn => ⟨_, hbad hn⟩⟩, hbad, ?_, ?_, ?_⟩
  · rintro ⟨f, hf⟩ hin
    rw [parseFlags_ok caseTable a hm3 hport (fun _ => (mapIndex_validMethods _).mpr hin)] at hf
    cases hf
  · intro config hc
    rw [(parseFlags_returns caseTable a config hc).1]
    rfl
  · intro b config hc hhttp
    obtain ⟨hcfg, -, -, hv⟩ := parseFlags_returns caseTable b config hc
    subst hcfg
    exact (mapIndex_validMethods _).mp (hv hhttp)
  · refine ⟨_, parseFlags_ok caseTable { a with method := "get" } hm3 hport (fun _ => ?_), ?_⟩
    · show mapIndex validMethods (ToUpper caseTable "get") = true
      rw [ToUpper_get]
      decide
    · exact ToUpper_get caseTable

/-- C3, at the method `Options` on port 8080: it is stored as `OPTIONS`, and `get` as `GET`. -/
theorem parseFlags_http_method_witness :
    (∀ config, parseFlags id Flags.httpSample = .ok config → config.Method = "OPTIONS") ∧
    (∃ config, parseFlags id { Flags.httpSample with method := "get" } = .ok config ∧
      config.Method = "GET") :=
  ⟨(parseFlags_http_method id Flags.httpSample (by decide) (by decide)).2.2.1,
   (parseFlags_http_method id Flags.httpSample (by decide) (by decide)).2.2.2.2⟩

/-! ## The probes, branch by branch -/

theorem checkTCP_dial_failed (w : World) (config : Config) (e : GoError)
    (h : w.dialContext config.Timeout "tcp" (address config) = some e) :
    (checkTCP w config).result = (false, none) ∧
    (checkTCP w config).steps = [.dial config.Timeout "tcp" (address config) (some e)] := by
  unfold checkTCP
  simp only [h]
  constructor <;> first | rfl | trivial

theorem checkTCP_dialled (w : World) (config : Config)
    (h : w.dialContext config.Timeout "tcp" (address config) = none) :
    (checkTCP w config).result = (true, none) ∧
    (checkTCP w config).steps = [.dial config.Timeout "tcp" (address config) none, .close] := by
  unfold checkTCP
  simp only [h]
  constructor <;> first | rfl | trivial

theorem checkUDP_dial_failed (w : World) (config : Config) (e : GoError)
    (h : w.dialContext config.Timeout "udp" (address config) = some e) :
    (checkUDP w config).result = (false, none) ∧
    (checkUDP w config).steps = [.dial config.Timeout "udp" (address config) (some e)] := by
  unfold checkUDP
  simp only [h]
  constructor <;> first | rfl | trivial

theorem checkUDP_deadline_failed (w : World) (config : Config) (e : GoError)
    (hd : w.dialContext config.Timeout "udp" (address config) = none)
    (hs : w.setWriteDeadline = some e) :
    (checkUDP w config).result = (false, none) ∧
    (checkUDP w config).steps = [.dial config.Timeout "udp" (address config) none,
      .setWriteDeadline config.Timeout (some e), .close] := by
  unfold checkUDP
  simp only [hd, hs]
  exact ⟨rfl, rfl⟩

theorem checkUDP_write_failed (w : World) (config : Config) (e : GoError)
    (hd : w.dialContext config.Timeout "udp" (address config) = none)
    (hs : w.setWriteDeadline = none) (hw : w.write probe = some e) :
    (checkUDP w config).result = (false, none) ∧
    (checkUDP w config).steps = [.dial config.Timeout "udp" (address config) none,
      .setWriteDeadline config.Timeout none, .write probe (some e), .close] := by
  unfold checkUDP
  simp only [hd, hs, hw]
  exact ⟨rfl, rfl⟩

theorem checkUDP_sent (w : World) (config : Config)
    (hd : w.dialContext config.Timeout "udp" (address config) = none)
    (hs : w.setWriteDeadline = none) (hw : w.write probe = none) :
    (checkUDP w config).result = (true, none) ∧
    (checkUDP w config).steps = [.dial config.Timeout "udp" (address config) none,
      .setWriteDeadline config.Timeout none, .write probe none,
      .setReadDeadline config.Timeout w.setReadDeadline,
      .setReadDeadline 100000000 w.setReadDeadlineShort, .read 1024 w.read, .close] := by
  unfold checkUDP
  simp only [hd, hs, hw]
  exact ⟨rfl, rfl⟩

theorem checkHTTP_request_failed (w : World) (config : Config) (e : GoError)
    (hn : w.newRequest config.Method (requestURL config) = some e) :
    (checkHTTP w config).result = (false, some e) ∧
    (checkHTTP w config).steps = [.newRequest config.Method (requestURL config) (some e)] := by
  unfold checkHTTP
  simp only [hn]
  constructor <;> first | rfl | trivial

theorem checkHTTP_do_failed (w : World) (config : Config) (e : GoError)
    (hn : w.newRequest config.Method (requestURL config) = none)
    (hd : w.clientDo config.Timeout config.Method (requestURL config) "Pulse/1.0" = .failure e) :
    (checkHTTP w config).result = (false, none) ∧
    (checkHTTP w config).steps = [.newRequest config.Method (requestURL config) none,
      .clientDo config.Timeout config.Method (requestURL config) "Pulse/1.0" (.failure e)] := by
  unfold checkHTTP
  simp only [hn, hd]
  exact ⟨rfl, rfl⟩

theorem checkHTTP_responded (w : World) (config : Config) (s : Int)
    (hn : w.newRequest config.Method (requestURL config) = none)
    (hd : w.clientDo config.Timeout config.Method (requestURL config) "Pulse/1.0"
      = .response s) :
    (checkHTTP w config).result = (decide (s ≥ 200 ∧ s < 400), none) ∧
    (checkHTTP w config).steps = [.newRequest config.Method (requestURL config) none,
      .clientDo config.Timeout config.Method (requestURL config) "Pulse/1.0" (.response s),
      .copyBody w.copyBody, .closeBody] := by
  unfold checkHTTP
  simp only [hn, hd]
  exact ⟨rfl, rfl⟩

/-- The URL of `checkHTTP`, written out. -/
theorem requestURL_eq (config : Config) :
    requestURL config = (if config.Port = 443 then "https" else "http") ++ "://" ++ config.Host
      ++ ":" ++ toString config.Port ++ config.Path := rfl

/-- The first call of `checkHTTP` is always `http.NewRequest` with the method and the URL. -/
theorem checkHTTP_first_step (w : World) (config : Config) :
    (checkHTTP w config).steps.head? = some (.newRequest config.Method (requestURL config)
      (w.newRequest config.Method (requestURL config))) := by
  cases hn : w.newRequest config.Method (requestURL config) with
  | some e => rw [(checkHTTP_request_failed w config e hn).2]; rfl
  | none =>
    cases hd : w.clientDo config.Timeout config.Method (requestURL config) "Pulse/1.0" with
    | failure e => rw [(checkHTTP_do_failed w config e hn hd).2]; rfl
    | response code => rw [(checkHTTP_responded w config code hn hd).2]; rfl

/-- A `client.Do` call in the trace of `checkHTTP` is the one call the source makes, made after
`http.NewRequest` succeeded, and it carries what the world answered. -/
theorem checkHTTP_do_step (w : World) (config : Config) (t : Int) (m u agent : String)
    (r : DoResult) (hmem : Step.clientDo t m u agent r ∈ (checkHTTP w config).steps) :
    t = config.Timeout ∧ m = config.Method ∧ u = requestURL config ∧ agent = "Pulse/1.0" ∧
    w.newRequest config.Method (requestURL config) = none ∧
    w.clientDo config.Timeout config.Method (requestURL config) "Pulse/1.0" = r := by
  cases hn : w.newRequest config.Method (requestURL config) with
  | some e =>
    rw [(checkHTTP_request_failed w config e hn).2] at hmem
    simp at hmem
  | none =>
    cases hd : w.clientDo config.Timeout config.Method (requestURL config) "Pulse/1.0" with
    | failure e =>
      rw [(checkHTTP_do_failed w config e hn hd).2] at hmem
      simp at hmem
      obtain ⟨h1, h2, h3, h4, h5⟩ := hmem
      exact ⟨h1, h2, h3, h4, rfl, h5.symm⟩
    | response code =>
      rw [(checkHTTP_responded w config code hn hd).2] at hmem
      simp at hmem
      obtain ⟨h1, h2, h3, h4, h5⟩ := hmem
      exact ⟨h1, h2, h3, h4, rfl, h5.symm⟩

/-- The run of `checkHTTP` depends on the world only through `http.NewRequest` and `client.Do` at
the method and URL of the configuration, and through the drain of the body. -/
theorem checkHTTP_congr (w other : World) (config : Config)
    (hn : other.newRequest config.Method (requestURL config)
      = w.newRequest config.Method (requestURL config))
    (hd : other.clientDo config.Timeout config.Method (requestURL config) "Pulse/1.0"
      = w.clientDo config.Timeout config.Method (requestURL config) "Pulse/1.0")
    (hc : other.copyBody = w.copyBody) :
    checkHTTP other config = checkHTTP w config := by
  unfold checkHTTP
  simp only [hn, hd, hc]

/-! ## The HTTP probe -/

/-- C4 as it holds: the first call of `checkHTTP` is `http.NewRequest` with the configured method
and the URL `scheme://host:port` followed by the configured path exactly as given, the port in
decimal; no slash is put between port and path, so the URL is `scheme://host:port/rest` when
the configured path is `/rest`; the scheme is `https` exactly when the port is 443 and `http`
for every other port; the request handed to `client.Do` carries that URL; and the run depends
on the world only through the answers for that URL. -/
theorem checkHTTP_url (w : World) (config : Config) :
    ∃ scheme : String,
      (scheme = "https" ↔ config.Port = 443) ∧
      (config.Port ≠ 443 → scheme = "http") ∧
      (checkHTTP w config).steps.head? = some (.newRequest config.Method
        (scheme ++ "://" ++ config.Host ++ ":" ++ toString config.Port ++ config.Path)
        (w.newRequest config.Method
          (scheme ++ "://" ++ config.Host ++ ":" ++ toString config.Port ++ config.Path))) ∧
      (∀ t m u agent r, Step.clientDo t m u agent r ∈ (checkHTTP w config).steps →
        u = scheme ++ "://" ++ config.Host ++ ":" ++ toString config.Port ++ config.Path) ∧
      (∀ rest : String, config.Path = "/" ++ rest →
        (checkHTTP w config).steps.head? = some (.newRequest config.Method
          (scheme ++ "://" ++ config.Host ++ ":" ++ toString config.Port ++ "/" ++ rest)
          (w.newRequest config.Method
            (scheme ++ "://" ++ config.Host ++ ":" ++ toString config.Port ++ "/" ++ rest)))) ∧
      (∀ other : World,
        other.newRequest config.Method
            (scheme ++ "://" ++ config.Host ++ ":" ++ toString config.Port ++ config.Path)
          = w.newRequest config.Method
            (scheme ++ "://" ++ config.Host ++ ":" ++ toString config.Port ++ config.Path) →
        other.clientDo config.Timeout config.Method
            (scheme ++ "://" ++ config.Host ++ ":" ++ toString config.Port ++ config.Path)
            "Pulse/1.0"
          = w.clientDo config.Timeout config.Method
            (scheme ++ "://" ++ config.Host ++ ":" ++ toString config.Port ++ config.Path)
            "Pulse/1.0" →
        other.copyBody = w.copyBody →
        checkHTTP other config = checkHTTP w config) := by
  refine ⟨if config.Port = 443 then "https" else "http", ?_, ?_, ?_, ?_, ?_, ?_⟩
  · by_cases hp : config.Port = 443 <;> simp [hp]
  · intro hp
    simp [hp]
  · rw [← requestURL_eq]
    exact checkHTTP_first_step w config
  · intro t m u agent r hmem
    rw [← requestURL_eq]
    exact (checkHTTP_do_step w config t m u agent r hmem).2.2.1
  · intro rest hrest
    have hurl : (if config.Port = 443 then "https" else "http") ++ "://" ++ config.Host ++ ":"
        ++ toString config.Port ++ "/" ++ rest = requestURL config := by
      rw [requestURL_eq, hrest, String.append_assoc _ "/" rest]
    rw [hurl]
    exact checkHTTP_first_step w config
  · intro other hn hd hc
    rw [← requestURL_eq] at hn hd
    exact checkHTTP_congr w other config hn hd hc

/-- C4 as the claim words it fails: the flags `--mode http --port 8080 --path health` are
accepted, and the URL requested is `http://localhost:8080health`, not
`http://localhost:8080/health`. -/
theorem checkHTTP_url_counterexample :
    parseFlags id { Flags.defaults with mode := "http", port := 8080, path := "health" }
      = .ok Config.noSlash ∧
    (checkHTTP (World.healthy 200) Config.noSlash).steps.head?
      = some (.newRequest "GET" "http://localhost:8080health" none) ∧
    (checkHTTP (World.healthy 200) Config.noSlash).steps.head?
      ≠ some (.newRequest "GET" ("http" ++ "://" ++ Config.noSlash.Host ++ ":"
          ++ toString Config.noSlash.Port ++ "/" ++ Config.noSlash.Path) none) ∧
    "http" ++ "://" ++ Config.noSlash.Host ++ ":" ++ toString Config.noSlash.Port ++ "/"
      ++ Config.noSlash.Path = "http://localhost:8080/health" := by
  decide

/-- C4, on port 443 with the path `/health`: the request goes to
`https://example.org:443/health`. -/
theorem checkHTTP_url_witness :
    (checkHTTP (World.healthy 200) Config.httpsSample).steps.head? =
      some (.newRequest "GET" "https://example.org:443/health" none) := by
  obtain ⟨scheme, hiff, -, -, -, hrest, -⟩ :=
    checkHTTP_url (World.healthy 200) Config.httpsSample
  have hs : scheme = "https" := hiff.mpr (by decide)
  subst hs
  exact hrest "health" (by decide)

/-- C5: when `http.NewRequest` succeeds and `client.Do` returns a response with status `s`,
`checkHTTP` returns `(true, nil)` if `200 ≤ s < 400` and `(false, nil)` otherwise, for every
integer `s` and whatever draining the body returned; a response with status `s` is in the
trace of the probe exactly in that case; in particular 200, 204, 301 and 399 succeed and 199,
400, 404 and 500 fail. -/
theorem checkHTTP_status (w : World) (config : Config) (s : Int) :
    (w.newRequest config.Method (requestURL config) = none →
      w.clientDo config.Timeout config.Method (requestURL config) "Pulse/1.0" = .response s →
      ((200 ≤ s ∧ s < 400) → (checkHTTP w config).result = (true, none)) ∧
      (¬ (200 ≤ s ∧ s < 400) → (checkHTTP w config).result = (false, none))) ∧
    ((∃ t m u agent, Step.clientDo t m u agent (.response s) ∈ (checkHTTP w config).steps) ↔
      (w.newRequest config.Method (requestURL config) = none ∧
        w.clientDo config.Timeout config.Method (requestURL config) "Pulse/1.0"
          = .response s)) ∧
    (∀ drained : Option GoError,
      (checkHTTP { w with copyBody := drained } config).result = (checkHTTP w config).result) ∧
    (∀ ok ∈ [200, 204, 301, 399], (checkHTTP (World.healthy ok) config).result = (true, none)) ∧
    (∀ bad ∈ [199, 400, 404, 500],
      (checkHTTP (World.healthy bad) config).result = (false, none)) := by
  refine ⟨?_, ?_, ?_, ?_, ?_⟩
  · intro hn hd
    have hres := (checkHTTP_responded w config s hn hd).1
    refine ⟨fun hs => ?_, fun hs => ?_⟩
    · rw [hres]
      simp [hs]
    · rw [hres]
      have hs' : ¬ (s ≥ 200 ∧ s < 400) := hs
      simp only [hs', decide_False]
  · constructor
    · rintro ⟨t, m, u, agent, hmem⟩
      exact (checkHTTP_do_step w config t m u agent _ hmem).2.2.2.2
    · rintro ⟨hn, hd⟩
      refine ⟨config.Timeout, config.Method, requestURL config, "Pulse/1.0", ?_⟩
      rw [(checkHTTP_responded w config s hn hd).2]
      simp
  · intro drained
    unfold checkHTTP
    simp only []
    cases w.newRequest config.Method (requestURL config) with
    | some e => rfl
    | none =>
      cases w.clientDo config.Timeout config.Method (requestURL config) "Pulse/1.0" <;> rfl
  · intro ok hok
    simp only [List.mem_cons, List.mem_singleton, List.not_mem_nil, or_false] at hok
    rcases hok with h | h | h | h <;> subst h <;> rfl
  · intro bad hbad
    simp only [List.mem_cons, List.mem_singleton, List.not_mem_nil, or_false] at hbad
    rcases hbad with h | h | h | h <;> subst h <;> rfl

/-- C5, for servers answering 250 and 403 whose body cannot be drained. -/
theorem checkHTTP_status_witness :
    (checkHTTP { World.healthy 250 with copyBody := some "unexpected EOF" }
      Config.httpsSample).result = (true, none) ∧
    (checkHTTP { World.healthy 403 with copyBody := some "unexpected EOF" }
      Config.httpsSample).result = (false, none) :=
  ⟨((checkHTTP_status { World.healthy 250 with copyBody := some "unexpected EOF" }
      Config.httpsSample 250).1 rfl rfl).1 (by decide),
   ((checkHTTP_status { World.healthy 403 with copyBody := some "unexpected EOF" }
      Config.httpsSample 403).1 rfl rfl).2 (by decide)⟩

/-! ## The UDP probe and network failures -/

/-- C7: the payload is the four bytes `PING`; when the dial succeeds and the payload is sent
(the write deadline is set and the write succeeds) `checkUDP` returns `(true, nil)`, and the
outcomes of both `SetReadDeadline` calls and of the read do not change what it returns; the
trace holds a successful write exactly in that case; when the dial fails, and whenever the
write fails, it returns `(false, nil)`. -/
theorem checkUDP_result (w : World) (config : Config) :
    (probe = "PING" ∧ probe.utf8ByteSize = 4) ∧
    (w.dialContext config.Timeout "udp" (address config) = none →
      w.setWriteDeadline = none → w.write "PING" = none →
      (checkUDP w config).result = (true, none)) ∧
    (Step.write "PING" none ∈ (checkUDP w config).steps ↔
      (w.dialContext config.Timeout "udp" (address config) = none ∧
        w.setWriteDeadline = none ∧ w.write "PING" = none)) ∧
    ((∃ t addr, Step.dial t "udp" addr none ∈ (checkUDP w config).steps) ∧
      Step.write "PING" none ∈ (checkUDP w config).steps →
      (checkUDP w config).result = (true, none)) ∧
    (∀ deadline short answer : Option GoError,
      (checkUDP { w with setReadDeadline := deadline, setReadDeadlineShort := short,
                         read := answer } config).result = (checkUDP w config).result) ∧
    (∀ e, w.dialContext config.Timeout "udp" (address config) = some e →
      (checkUDP w config).result = (false, none)) ∧
    (∀ e, w.write "PING" = some e → (checkUDP w config).result = (false, none)) ∧
    ((∃ t addr e, Step.dial t "udp" addr (some e) ∈ (checkUDP w config).steps) →
      (checkUDP w config).result = (false, none)) ∧
    ((∃ payload e, Step.write payload (some e) ∈ (checkUDP w config).steps) →
      (checkUDP w config).result = (false, none)) := by
  have hwrite : Step.write "PING" none ∈ (checkUDP w config).steps →
      (w.dialContext config.Timeout "udp" (address config) = none ∧
        w.setWriteDeadline = none ∧ w.write "PING" = none) := by
    intro hmem
    cases hd : w.dialContext config.Timeout "udp" (address config) with
    | some e =>
      rw [(checkUDP_dial_failed w config e hd).2] at hmem
      simp at hmem
    | none =>
      cases hs : w.setWriteDeadline with
      | some e =>
        rw [(checkUDP_deadline_failed w config e hd hs).2] at hmem
        simp at hmem
      | none =>
        cases hw : w.write probe with
        | some e =>
          rw [(checkUDP_write_failed w config e hd hs hw).2] at hmem
          simp at hmem
        | none => exact ⟨rfl, rfl, hw⟩
  have hfalse : (∀ e, w.dialContext config.Timeout "udp" (address config) = some e →
        (checkUDP w config).result = (false, none)) ∧
      (∀ e, w.write probe = some e → (checkUDP w config).result = (false, none)) := by
    refine ⟨fun e hd => (checkUDP_dial_failed w config e hd).1, fun e hw => ?_⟩
    cases hd : w.dialContext config.Timeout "udp" (address config) with
    | some e1 => exact (checkUDP_dial_failed w config e1 hd).1
    | none =>
      cases hs : w.setWriteDeadline with
      | some e2 => exact (checkUDP_deadline_failed w config e2 hd hs).1
      | none => exact (checkUDP_write_failed w config e hd hs hw).1
  refine ⟨⟨rfl, by decide⟩, ?_, ⟨hwrite, ?_⟩, ?_, ?_, hfalse.1, hfalse.2, ?_, ?_⟩
  · intro hd hs hw
    exact (checkUDP_sent w config hd hs hw).1
  · rintro ⟨hd, hs, hw⟩
    rw [(checkUDP_sent w config hd hs hw).2]
    simp [probe]
  · rintro ⟨-, hmem⟩
    obtain ⟨hd, hs, hw⟩ := hwrite hmem
    exact (checkUDP_sent w config hd hs hw).1
  · intro deadline short answer
    unfold checkUDP
    simp only []
    cases w.dialContext config.Timeout "udp" (address config) with
    | some e => rfl
    | none =>
      cases w.setWriteDeadline with
      | some e => rfl
      | none => cases w.write probe <;> rfl
  · rintro ⟨t, addr, e, hmem⟩
    cases hd : w.dialContext config.Timeout "udp" (address config) with
    | some e1 => exact (checkUDP_dial_failed w config e1 hd).1
    | none =>
      cases hs : w.setWriteDeadline with
      | some e2 => exact (checkUDP_deadline_failed w config e2 hd hs).1
      | none =>
        cases hw : w.write probe with
        | some e3 => exact (checkUDP_write_failed w config e3 hd hs hw).1
        | none =>
          rw [(checkUDP_sent w config hd hs hw).2] at hmem
          simp at hmem
  · rintro ⟨payload, e, hmem⟩
    cases hd : w.dialContext config.Timeout "udp" (address config) with
    | some e1 => exact (checkUDP_dial_failed w config e1 hd).1
    | none =>
      cases hs : w.setWriteDeadline with
      | some e2 => exact (checkUDP_deadline_failed w config e2 hd hs).1
      | none =>
        cases hw : w.write probe with
        | some e3 => exact (checkUDP_write_failed w config e3 hd hs hw).1
        | none =>
          rw [(checkUDP_sent w config hd hs hw).2] at hmem
          simp at hmem

/-- C7, for a peer that never answers on a socket that refuses the read deadline, for a refused
dial, and for a write that fails. -/
theorem checkUDP_result_witness :
    (checkUDP World.silentPeer Config.httpsSample).result = (true, none) ∧
    (checkUDP World.down Config.httpsSample).result = (false, none) ∧
    (checkUDP World.sendFails Config.httpsSample).result = (false, none) :=
  ⟨(checkUDP_result World.silentPeer Config.httpsSample).2.1 rfl rfl rfl,
   (checkUDP_result World.down Config.httpsSample).2.2.2.2.2.1 "connection refused" rfl,
   (checkUDP_result World.sendFails Config.httpsSample).2.2.2.2.2.2.1 "connection refused" rfl⟩

/-- C8: a failed dial in `checkTCP`, a failed dial or write in `checkUDP` and a failed round trip
in `checkHTTP` each give `(false, nil)`; `checkTCP` and `checkUDP` never return an error; and
`checkHTTP` returns an error exactly when `http.NewRequest` fails, and then returns that error
with the success flag false. -/
theorem network_failures_fold (w : World) (config : Config) :
    (∀ e, w.dialContext config.Timeout "tcp" (address config) = some e →
      (checkTCP w config).result = (false, none)) ∧
    (checkTCP w config).err = none ∧
    (∀ e, w.dialContext config.Timeout "udp" (address config) = some e →
      (checkUDP w config).result = (false, none)) ∧
    (∀ e, w.write "PING" = some e → (checkUDP w config).result = (false, none)) ∧
    (checkUDP w config).err = none ∧
    (∀ e, w.newRequest config.Method (requestURL config) = none →
      w.clientDo config.Timeout config.Method (requestURL config) "Pulse/1.0" = .failure e →
      (checkHTTP w config).result = (false, none)) ∧
    ((checkHTTP w config).err ≠ none ↔ w.newRequest config.Method (requestURL config) ≠ none) ∧
    (∀ e, w.newRequest config.Method (requestURL config) = some e →
      (checkHTTP w config).result = (false, some e)) ∧
    ((checkHTTP w config).err ≠ none → (checkHTTP w config).success = false) ∧
    ((∃ t network addr e, Step.dial t network addr (some e) ∈ (checkTCP w config).steps) →
      (checkTCP w config).result = (false, none)) ∧
    ((∃ t network addr e, Step.dial t network addr (some e) ∈ (checkUDP w config).steps) →
      (checkUDP w config).result = (false, none)) ∧
    ((∃ payload e, Step.write payload (some e) ∈ (checkUDP w config).steps) →
      (checkUDP w config).result = (false, none)) ∧
    ((∃ t m u agent e, Step.clientDo t m u agent (.failure e) ∈ (checkHTTP w config).steps) →
      (checkHTTP w config).result = (false, none)) := by
  have hudp : (checkUDP w config).err = none ∧
      ((∀ e, w.write probe = some e → (checkUDP w config).result = (false, none)) ∧
      ((∃ t network addr e, Step.dial t network addr (some e) ∈ (checkUDP w config).steps) →
        (checkUDP w config).result = (false, none)) ∧
      ((∃ payload e, Step.write payload (some e) ∈ (checkUDP w config).steps) →
        (checkUDP w config).result = (false, none))) := by
    cases hd : w.dialContext config.Timeout "udp" (address config) with
    | some e1 =>
      have hr := (checkUDP_dial_failed w config e1 hd).1
      exact ⟨congrArg Prod.snd hr, fun _ _ => hr, fun _ => hr, fun _ => hr⟩
    | none =>
      cases hs : w.setWriteDeadline with
      | some e2 =>
        have hr := (checkUDP_deadline_failed w config e2 hd hs).1
        exact ⟨congrArg Prod.snd hr, fun _ _ => hr, fun _ => hr, fun _ => hr⟩
      | none =>
        cases hw : w.write probe with
        | some e3 =>
          have hr := (checkUDP_write_failed w config e3 hd hs hw).1
          exact ⟨congrArg Prod.snd hr, fun _ _ => hr, fun _ => hr, fun _ => hr⟩
        | none =>
          have hr := (checkUDP_sent w config hd hs hw).1
          refine ⟨congrArg Prod.snd hr, fun e he => (by cases he), ?_, ?_⟩
          · rintro ⟨t, network, addr, e, hmem⟩
            rw [(checkUDP_sent w config hd hs hw).2] at hmem
            simp at hmem
          · rintro ⟨payload, e, hmem⟩
            rw [(checkUDP_sent w config hd hs hw).2] at hmem
            simp at hmem
  have htcp : (checkTCP w config).err = none ∧
      ((∃ t network addr e, Step.dial t network addr (some e) ∈ (checkTCP w config).steps) →
        (checkTCP w config).result = (false, none)) := by
    cases hd : w.dialContext config.Timeout "tcp" (address config) with
    | some e1 =>
      have hr := (checkTCP_dial_failed w config e1 hd).1
      exact ⟨congrArg Prod.snd hr, fun _ => hr⟩
    | none =>
      refine ⟨congrArg Prod.snd (checkTCP_dialled w config hd).1, ?_⟩
      rintro ⟨t, network, addr, e, hmem⟩
      rw [(checkTCP_dialled w config hd).2] at hmem
      simp at hmem
  have hhttp : ((checkHTTP w config).err ≠ none ↔
        w.newRequest config.Method (requestURL config) ≠ none) ∧
      ((checkHTTP w config).err ≠ none → (checkHTTP w config).success = false) := by
    cases hn : w.newRequest config.Method (requestURL config) with
    | some e1 =>
      have hr := (checkHTTP_request_failed w config e1 hn).1
      have he : (checkHTTP w config).err = some e1 := congrArg Prod.snd hr
      exact ⟨by simp [he], fun _ => congrArg Prod.fst hr⟩
    | none =>
      cases hd : w.clientDo config.Timeout config.Method (requestURL config) "Pulse/1.0" with
      | failure e2 =>
        have he : (checkHTTP w config).err = none :=
          congrArg Prod.snd (checkHTTP_do_failed w config e2 hn hd).1
        exact ⟨by simp [he], fun h => absurd he h⟩
      | response code =>
        have he : (checkHTTP w config).err = none :=
          congrArg Prod.snd (checkHTTP_responded w config code hn hd).1
        exact ⟨by simp [he], fun h => absurd he h⟩
  refine ⟨fun e hd => (checkTCP_dial_failed w config e hd).1, htcp.1,
    fun e hd => (checkUDP_dial_failed w config e hd).1, hudp.2.1, hudp.1,
    fun e hn hd => (checkHTTP_do_failed w config e hn hd).1, hhttp.1,
    fun e hn => (checkHTTP_request_failed w config e hn).1, hhttp.2,
    htcp.2, hudp.2.2.1, hudp.2.2.2, ?_⟩
  rintro ⟨t, m, u, agent, e, hmem⟩
  obtain ⟨-, -, -, -, hn, hd⟩ := checkHTTP_do_step w config t m u agent _ hmem
  exact (checkHTTP_do_failed w config e hn hd).1

/-- C8, for a refused TCP dial, a refused UDP dial, a failed UDP write and a failed HTTP round
trip. -/
theorem network_failures_fold_witness :
    (checkTCP World.down Config.httpsSample).result = (false, none) ∧
    (checkUDP World.down Config.httpsSample).result = (false, none) ∧
    (checkUDP World.sendFails Config.httpsSample).result = (false, none) ∧
    (checkHTTP World.down Config.httpsSample).result = (false, none) :=
  ⟨(network_failures_fold World.down Config.httpsSample).1 "connection refused" rfl,
   (network_failures_fold World.down Config.httpsSample).2.2.1 "connection refused" rfl,
   (network_failures_fold World.sendFails Config.httpsSample).2.2.2.1 "connection refused" rfl,
   (network_failures_fold World.down Config.httpsSample).2.2.2.2.2.1 "no such host" rfl rfl⟩

/-! ## The dispatcher -/

theorem dispatch_tcp (w : World) (config : Config) (h : config.Mode = "tcp") :
    dispatch w config = .ok (.tcp, checkTCP w config) := by
  simp [dispatch, h]

theorem dispatch_udp (w : World) (config : Config) (h : config.Mode = "udp") :
    dispatch w config = .ok (.udp, checkUDP w config) := by
  simp [dispatch, h]

theorem dispatch_http (w : World) (config : Config) (h : config.Mode = "http") :
    dispatch w config = .ok (.http, checkHTTP w config) := by
  simp [dispatch, h]

/-- For a mode among the three names the switch calls the probe of that name. -/
theorem dispatch_valid (w : World) (config : Config)
    (h : config.Mode = "tcp" ∨ config.Mode = "udp" ∨ config.Mode = "http") :
    ∃ kind : ProbeKind, kind.mode = config.Mode ∧
      dispatch w config = .ok (kind, kind.run w config) := by
  rcases h with h | h | h
  · exact ⟨.tcp, h.symm, dispatch_tcp w config h⟩
  · exact ⟨.udp, h.symm, dispatch_udp w config h⟩
  · exact ⟨.http, h.symm, dispatch_http w config h⟩

/-- What `main` does once the configuration is resolved and the switch has called a probe. -/
theorem main_of_dispatch (caseTable : Char → Char) (w : World) (a : Flags) (config : Config)
    (kind : ProbeKind) (run : ProbeRun) (hc : parseFlags caseTable a = .ok config)
    (hd : dispatch w config = .ok (kind, run)) :
    main caseTable w a =
      { exitCode := (report config run.success run.err).exitCode,
        stdout := (report config run.success run.err).stdout,
        log := banner config ++ run.log ++ (report config run.success run.err).log,
        invoked := [kind], steps := run.steps, fatal := none } := by
  simp [main, hc, hd]

theorem main_of_fatal (caseTable : Char → Char) (w : World) (a : Flags) (f : Fatal)
    (hc : parseFlags caseTable a = .error f) :
    main caseTable w a = fatalExit f [] := by
  simp [main, hc]

/-- C6: the tail of `main` exits with status 0 exactly when the error is nil and the probe
succeeded, and with status 1 otherwise; it prints the one line `OK` when the error is nil, the
probe succeeded and silent is off, the one line `FAIL` when the error is nil, the probe failed
and silent is off, and nothing in every other case; and this is the exit status and output of
`main` for the result of the probe it called. -/
theorem main_exit_table (config : Config) (success : Bool) (err : Option GoError) :
    ((report config success err).exitCode = 0 ↔ (err = none ∧ success = true)) ∧
    (¬ (err = none ∧ success = true) → (report config success err).exitCode = 1) ∧
    (err = none → success = true → config.Silent = false →
      (report config success err).stdout = ["OK"]) ∧
    (err = none → success = false → config.Silent = false →
      (report config success err).stdout = ["FAIL"]) ∧
    (¬ (err = none ∧ config.Silent = false) → (report config success err).stdout = []) ∧
    (∀ (caseTable : Char → Char) (w : World) (a : Flags) (kind : ProbeKind) (run : ProbeRun),
      parseFlags caseTable a = .ok config → dispatch w config = .ok (kind, run) →
      (main caseTable w a).exitCode = (report config run.success run.err).exitCode ∧
      (main caseTable w a).stdout = (report config run.success run.err).stdout) := by
  refine ⟨?_, ?_, ?_, ?_, ?_, ?_⟩
  · cases err <;> cases success <;> simp [report]
  · cases err <;> cases success <;> simp [report]
  · intro he hs hq
    subst he hs
    simp [report, hq]
  · intro he hs hq
    subst he hs
    simp [report, hq]
  · intro h
    cases err with
    | some e => rfl
    | none =>
      have hq : config.Silent = true := by
        cases hsil : config.Silent
        · exact absurd ⟨rfl, hsil⟩ h
        · rfl
      cases success <;> simp [report, hq]
  · intro caseTable w a kind run hc hd
    rw [main_of_dispatch caseTable w a config kind run hc hd]
    exact ⟨rfl, rfl⟩

/-- C6, for a probe that fails with silent off, and for a whole run against a server
answering 404. -/
theorem main_exit_table_witness :
    (report Config.httpsSample false none).stdout = ["FAIL"] ∧
    (report Config.httpsSample false none).exitCode = 1 ∧
    (main id (World.healthy 404) Flags.httpSample).exitCode = 1 ∧
    (main id (World.healthy 404) Flags.httpSample).stdout = ["FAIL"] :=
  ⟨(main_exit_table Config.httpsSample false none).2.2.2.1 rfl rfl rfl,
   (main_exit_table Config.httpsSample false none).2.1 (by decide),
   ((main_exit_table (configOf id Flags.httpSample) false none).2.2.2.2.2 id (World.healthy 404)
      Flags.httpSample .http (checkHTTP (World.healthy 404) (configOf id Flags.httpSample))
      (by decide) (by decide)).1.trans (by decide),
   ((main_exit_table (configOf id Flags.httpSample) false none).2.2.2.2.2 id (World.healthy 404)
      Flags.httpSample .http (checkHTTP (World.healthy 404) (configOf id Flags.httpSample))
      (by decide) (by decide)).2.trans (by decide)⟩

/-- C10: for a configuration returned by `parseFlags`, the switch of `main` calls the probe whose
name is the configured mode, `main` calls that probe and no other, once, its library calls
are those of that probe, and no `log.Fatalf` is reached. -/
theorem main_selects_probe (caseTable : Char → Char) (w : World) (a : Flags) (config : Config)
    (h : parseFlags caseTable a = .ok config) :
    ∃ kind : ProbeKind,
      kind.mode = config.Mode ∧
      dispatch w config = .ok (kind, kind.run w config) ∧
      (∀ m, dispatch w config ≠ .error (.invalidMode m)) ∧
      (main caseTable w a).invoked = [kind] ∧
      (main caseTable w a).steps = (kind.run w config).steps ∧
      (main caseTable w a).fatal = none := by
  obtain ⟨hcfg, hmode, -, -⟩ := parseFlags_returns caseTable a config h
  have hmode' : config.Mode = "tcp" ∨ config.Mode = "udp" ∨ config.Mode = "http" := by
    rw [hcfg]
    exact hmode
  obtain ⟨kind, hk, hd⟩ := dispatch_valid w config hmode'
  refine ⟨kind, hk, hd, ?_, ?_, ?_, ?_⟩
  · intro m hm
    rw [hd] at hm
    cases hm
  · rw [main_of_dispatch caseTable w a config kind _ h hd]
  · rw [main_of_dispatch caseTable w a config kind _ h hd]
  · rw [main_of_dispatch caseTable w a config kind _ h hd]

/-- C10, for the default flags (tcp probe of localhost:80). -/
theorem main_selects_probe_witness :
    ∃ kind : ProbeKind,
      kind.mode = "tcp" ∧
      dispatch World.down (configOf id Flags.defaults)
        = .ok (kind, kind.run World.down (configOf id Flags.defaults)) ∧
      (∀ m, dispatch World.down (configOf id Flags.defaults) ≠ .error (.invalidMode m)) ∧
      (main id World.down Flags.defaults).invoked = [kind] ∧
      (main id World.down Flags.defaults).steps
        = (kind.run World.down (configOf id Flags.defaults)).steps ∧
      (main id World.down Flags.defaults).fatal = none :=
  main_selects_probe id World.down Flags.defaults (configOf id Flags.defaults) (by decide)

/-! ## Verbose logging -/

theorem checkTCP_verbose (w : World) (config : Config) (v : Bool) :
    (checkTCP w { config with Verbose := v }).result = (checkTCP w config).result := by
  unfold checkTCP
  simp only [address]
  cases w.dialContext config.Timeout "tcp" (config.Host ++ ":" ++ toString config.Port) <;> rfl

theorem checkUDP_verbose (w : World) (config : Config) (v : Bool) :
    (checkUDP w { config with Verbose := v }).result = (checkUDP w config).result := by
  unfold checkUDP
  simp only [address]
  cases w.dialContext config.Timeout "udp" (config.Host ++ ":" ++ toString config.Port) with
  | some e => rfl
  | none =>
    cases w.setWriteDeadline with
    | some e => rfl
    | none => cases w.write probe <;> rfl

theorem checkHTTP_verbose (w : World) (config : Config) (v : Bool) :
    (checkHTTP w { config with Verbose := v }).result = (checkHTTP w config).result := by
  have hurl : requestURL { config with Verbose := v } = requestURL config := rfl
  unfold checkHTTP
  simp only [hurl]
  cases w.newRequest config.Method (requestURL config) with
  | some e => rfl
  | none =>
    cases w.clientDo config.Timeout config.Method (requestURL config) "Pulse/1.0" <;> rfl

/-- The exit status and the output depend on the probe result and on `Silent` only. -/
theorem report_verbose (config : Config) (v : Bool) (run other : ProbeRun)
    (h : other.result = run.result) :
    (report { config with Verbose := v } other.success other.err).exitCode
      = (report config run.success run.err).exitCode ∧
    (report { config with Verbose := v } other.success other.err).stdout
      = (report config run.success run.err).stdout := by
  simp only [ProbeRun.result, Prod.mk.injEq] at h
  rw [h.1, h.2]
  cases run.err <;> cases run.success <;> exact ⟨rfl, rfl⟩

/-- Setting the verbose flag changes nothing in what `parseFlags` decides; a returned
configuration differs in `Verbose` only. -/
theorem parseFlags_verbose (caseTable : Char → Char) (a : Flags) (v : Bool) :
    parseFlags caseTable { a with verbose := v } =
      match parseFlags caseTable a with
      | .error f => .error f
      | .ok config => .ok { config with Verbose := v } := by
  unfold parseFlags
  simp only []
  split_ifs <;> rfl

/-- The exit status and output of `main` for given flags are those for the same flags with
verbose off. -/
theorem main_verbose (caseTable : Char → Char) (w : World) (a : Flags) (v : Bool) :
    (main caseTable w { a with verbose := v }).exitCode = (main caseTable w a).exitCode ∧
    (main caseTable w { a with verbose := v }).stdout = (main caseTable w a).stdout := by
  have hv := parseFlags_verbose caseTable a v
  cases hc : parseFlags caseTable a with
  | error f =>
    rw [hc] at hv
    rw [main_of_fatal caseTable w _ f hv, main_of_fatal caseTable w a f hc]
    exact ⟨rfl, rfl⟩
  | ok config =>
    rw [hc] at hv
    obtain ⟨hcfg, hmode, -, -⟩ := parseFlags_returns caseTable a config hc
    have hmode' : config.Mode = "tcp" ∨ config.Mode = "udp" ∨ config.Mode = "http" := by
      rw [hcfg]
      exact hmode
    rcases hmode' with h | h | h
    · rw [main_of_dispatch caseTable w _ _ .tcp _ hv (dispatch_tcp w _ h),
        main_of_dispatch caseTable w a config .tcp _ hc (dispatch_tcp w config h)]
      exact report_verbose config v _ _ (checkTCP_verbose w config v)
    · rw [main_of_dispatch caseTable w _ _ .udp _ hv (dispatch_udp w _ h),
        main_of_dispatch caseTable w a config .udp _ hc (dispatch_udp w config h)]
      exact report_verbose config v _ _ (checkUDP_verbose w config v)
    · rw [main_of_dispatch caseTable w _ _ .http _ hv (dispatch_http w _ h),
        main_of_dispatch caseTable w a config .http _ hc (dispatch_http w config h)]
      exact report_verbose config v _ _ (checkHTTP_verbose w config v)

/-- C9: two configurations that differ only in `Verbose` give, in the same world, the same
`(success, error)` from each of `checkTCP`, `checkUDP` and `checkHTTP`, and flags that differ
only in `verbose` give the same exit status and the same output from `main`. -/
theorem verbose_is_side_effect_only (caseTable : Char → Char) (w : World) (config : Config)
    (a : Flags) (v₁ v₂ : Bool) :
    (checkTCP w { config with Verbose := v₁ }).result
      = (checkTCP w { config with Verbose := v₂ }).result ∧
    (checkUDP w { config with Verbose := v₁ }).result
      = (checkUDP w { config with Verbose := v₂ }).result ∧
    (checkHTTP w { config with Verbose := v₁ }).result
      = (checkHTTP w { config with Verbose := v₂ }).result ∧
    (main caseTable w { a with verbose := v₁ }).exitCode
      = (main caseTable w { a with verbose := v₂ }).exitCode ∧
    (main caseTable w { a with verbose := v₁ }).stdout
      = (main caseTable w { a with verbose := v₂ }).stdout := by
  refine ⟨?_, ?_, ?_, ?_, ?_⟩
  · rw [checkTCP_verbose w config v₁, checkTCP_verbose w config v₂]
  · rw [checkUDP_verbose w config v₁, checkUDP_verbose w config v₂]
  · rw [checkHTTP_verbose w config v₁, checkHTTP_verbose w config v₂]
  · rw [(main_verbose caseTable w a v₁).1, (main_verbose caseTable w a v₂).1]
  · rw [(main_verbose caseTable w a v₁).2, (main_verbose caseTable w a v₂).2]

end Pulse
